import Mathlib

/-!
Verification of the OpenAIPlugin lifecycle manager
(`src/lifecycle_manager.py`) against its natural-language specification.

The Python code is shallowly embedded as executable Lean definitions:

* JSON values stored in database columns are modelled by the inductive
  `Json`; a column holding the string `json.dumps j` is modelled by
  `Stored.jsonOf j` (Python's `json.loads` is a left inverse of
  `json.dumps`, and `json.dumps` always yields a truthy, non-empty
  string), a stored string rejected by `json.loads` by
  `Stored.malformed`, and SQL NULL by `Stored.null`.
* The SQLAlchemy session is modelled by `Session`: the current table
  contents, the contents at the last commit (so `rollback` restores
  them), and a log of the statements issued on the handle.
* Wall-clock timestamp columns (`created_at`, `updated_at`,
  `last_updated`, `last_used`) and the constant metadata columns copied
  verbatim from `plugin_data` / `module_data` (icon, category, author,
  permissions, layout, tags, ...) are elided: no claim mentions them and
  no branch of the code reads them back.
* An INSERT fails exactly when a row with the same primary key `id`
  already exists (the relational store's unique-key constraint); this is
  the only statement failure the code can encounter in this model, so
  the generic `except Exception` handlers are translated as handlers of
  that failure.
-/

/-- A JSON value, as produced by Python's `json.loads`.  Numbers are
rationals (the module metadata uses the float `0.7`). -/
inductive Json where
  | null : Json
  | bool (b : Bool) : Json
  | num (q : Rat) : Json
  | str (s : String) : Json
  | arr (xs : List Json) : Json
  | obj (fields : List (String × Json)) : Json

/-- Python truthiness of a JSON value (`if value:`). -/
def pyTruthy : Json → Bool
  | Json.null => false
  | Json.bool b => b
  | Json.num q => !(q == 0)
  | Json.str s => !s.data.isEmpty
  | Json.arr xs => !xs.isEmpty
  | Json.obj fields => !fields.isEmpty

/-- The content of a TEXT column that the code feeds to `json.loads`.
`jsonOf j` is the string `json.dumps j`; `malformed s` is a stored
string on which `json.loads` raises; `null` is SQL NULL (Python
`None`). -/
inductive Stored where
  | null : Stored
  | jsonOf (j : Json) : Stored
  | malformed (s : String) : Stored

/-- Python truthiness of the stored column value (`if row.config_fields:`).
`json.dumps` never returns an empty string, so `jsonOf` is always
truthy. -/
def storedTruthy : Stored → Bool
  | Stored.null => false
  | Stored.jsonOf _ => true
  | Stored.malformed s => !s.data.isEmpty

/-- `json.loads` on the stored column value: succeeds exactly on strings
produced by `json.dumps`. -/
def storedLoads : Stored → Option Json
  | Stored.jsonOf j => some j
  | _ => none

/-- Python dictionary assignment `d[k] = v` on an association list:
an existing key keeps its position, a new key is appended. -/
def dictSet (d : List (String × Json)) (k : String) (v : Json) :
    List (String × Json) :=
  if d.any (fun kv => kv.1 == k) then
    d.map (fun kv => if kv.1 == k then (k, v) else kv)
  else d ++ [(k, v)]

/-- A row of the `plugin` table (the columns the code reads back or the
claims mention; see the header comment for the elided columns). -/
structure PluginRow where
  id : String
  name : String
  version : String
  enabled : Bool
  status : String
  config_fields : Stored
  user_id : String
  plugin_slug : String

/-- A row of the `module` table (the columns the code reads back). -/
structure ModuleRow where
  id : String
  plugin_id : String
  name : String
  config_fields : Stored
  user_id : String

/-- The two tables the lifecycle manager touches. -/
structure DB where
  plugins : List PluginRow
  modules : List ModuleRow

/-- A statement issued on the transactional handle. -/
inductive DbOp where
  | insert : DbOp
  | select : DbOp
  | delete : DbOp
  | update : DbOp
  | commit : DbOp
  | rollback : DbOp
deriving DecidableEq

/-- The SQLAlchemy `AsyncSession` handle: current table state, the state
at the last commit (restored by `rollback`), and the statement log. -/
structure Session where
  committed : DB
  db : DB
  log : List DbOp

def emptyDB : DB := ⟨[], []⟩

def emptySession : Session := ⟨emptyDB, emptyDB, []⟩

/-- `await db.commit()`. -/
def execCommit (s : Session) : Session :=
  ⟨s.db, s.db, s.log ++ [DbOp.commit]⟩

/-- `await db.rollback()`. -/
def execRollback (s : Session) : Session :=
  ⟨s.committed, s.committed, s.log ++ [DbOp.rollback]⟩

/-- `INSERT INTO plugin ...`: raises on a duplicate primary key. -/
def execInsertPlugin (s : Session) (row : PluginRow) :
    Except String Session :=
  if s.db.plugins.any (fun p => p.id == row.id) then
    Except.error "UNIQUE constraint failed: plugin.id"
  else
    Except.ok ⟨s.committed, ⟨s.db.plugins ++ [row], s.db.modules⟩,
      s.log ++ [DbOp.insert]⟩

/-- `INSERT INTO module ...`: raises on a duplicate primary key. -/
def execInsertModule (s : Session) (row : ModuleRow) :
    Except String Session :=
  if s.db.modules.any (fun r => r.id == row.id) then
    Except.error "UNIQUE constraint failed: module.id"
  else
    Except.ok ⟨s.committed, ⟨s.db.plugins, s.db.modules ++ [row]⟩,
      s.log ++ [DbOp.insert]⟩

/-- `SELECT ... FROM plugin WHERE user_id = :u AND plugin_slug = :slug`
with `fetchone()` (the first matching row). -/
def execSelectPlugin (s : Session) (u slug : String) :
    Option PluginRow × Session :=
  (s.db.plugins.find? (fun p => p.user_id == u && p.plugin_slug == slug),
   ⟨s.committed, s.db, s.log ++ [DbOp.select]⟩)

/-- `SELECT name, config_fields FROM module WHERE plugin_id = :p AND
user_id = :u` with `fetchall()`. -/
def execSelectModules (s : Session) (pid u : String) :
    List ModuleRow × Session :=
  (s.db.modules.filter (fun r => r.plugin_id == pid && r.user_id == u),
   ⟨s.committed, s.db, s.log ++ [DbOp.select]⟩)

/-- `DELETE FROM module WHERE plugin_id = :p AND user_id = :u`,
returning the statement's `rowcount`. -/
def execDeleteModules (s : Session) (pid u : String) : Nat × Session :=
  ((s.db.modules.filter
      (fun r => r.plugin_id == pid && r.user_id == u)).length,
   ⟨s.committed,
    ⟨s.db.plugins,
     s.db.modules.filter
       (fun r => !(r.plugin_id == pid && r.user_id == u))⟩,
    s.log ++ [DbOp.delete]⟩)

/-- `DELETE FROM plugin WHERE id = :p AND user_id = :u`, returning the
statement's `rowcount`. -/
def execDeletePlugin (s : Session) (pid u : String) : Nat × Session :=
  ((s.db.plugins.filter
      (fun p => p.id == pid && p.user_id == u)).length,
   ⟨s.committed,
    ⟨s.db.plugins.filter
       (fun p => !(p.id == pid && p.user_id == u)),
     s.db.modules⟩,
    s.log ++ [DbOp.delete]⟩)

/-- `UPDATE plugin SET config_fields = :c WHERE id = :p AND user_id = :u`. -/
def execUpdatePluginConfig (s : Session) (pid u : String) (c : Stored) :
    Session :=
  ⟨s.committed,
   ⟨s.db.plugins.map
      (fun p => if p.id == pid && p.user_id == u then
        { p with config_fields := c } else p),
    s.db.modules⟩,
   s.log ++ [DbOp.update]⟩

/-- `UPDATE module SET config_fields = :c WHERE id = :m AND user_id = :u`. -/
def execUpdateModuleConfig (s : Session) (mid u : String) (c : Stored) :
    Session :=
  ⟨s.committed,
   ⟨s.db.plugins,
    s.db.modules.map
      (fun r => if r.id == mid && r.user_id == u then
        { r with config_fields := c } else r)⟩,
   s.log ++ [DbOp.update]⟩

/-- One entry of `self.module_data`: the module name and the
`config_fields` schema that `_create_database_records` serialises into
the module row (the other, never-read-back metadata keys are elided). -/
structure ModuleData where
  name : String
  config_fields : Json

/-- The `config_fields` schema of the `ComponentOpenAIStatus` module. -/
def statusSchema : Json :=
  Json.obj [("refresh_interval",
    Json.obj [("type", Json.str "number"),
              ("description", Json.str "Auto-refresh interval in seconds"),
              ("default", Json.num 30)])]

/-- The `config_fields` schema of the `ComponentOpenAIChat` module. -/
def chatSchema : Json :=
  Json.obj [("default_model",
    Json.obj [("type", Json.str "string"),
              ("description", Json.str "Default OpenAI model to use"),
              ("default", Json.str "gpt-3.5-turbo")]),
    ("max_tokens",
    Json.obj [("type", Json.str "number"),
              ("description", Json.str "Maximum tokens per response"),
              ("default", Json.num 1000)]),
    ("temperature",
    Json.obj [("type", Json.str "number"),
              ("description", Json.str "Response creativity (0-1)"),
              ("default", Json.num (0.7 : Rat))])]

/-- `self.module_data` of `OpenAILifecycleManager.__init__`. -/
def openAIModules : List ModuleData :=
  [⟨"ComponentOpenAIStatus", statusSchema⟩,
   ⟨"ComponentOpenAIChat", chatSchema⟩]

/-- An `OpenAILifecycleManager` instance: the `plugin_data` fields the
code reads back, the module descriptors, and the process-local
`active_users` set of `BaseLifecycleManager` (a duplicate-free list).
The filesystem paths (`shared_path`) and timestamps (`created_at`,
`last_used`) are elided. -/
structure Manager where
  plugin_slug : String
  plugin_name : String
  version : String
  module_data : List ModuleData
  active_users : List String

/-- An `OpenAILifecycleManager` bound to the given version string with
the given `active_users` state; `__init__` always starts with
`active_users = set()` (see `freshManager`). -/
def openAIManager (ver : String) (active : List String) : Manager :=
  ⟨"OpenAIPlugin", "OpenAIPlugin", ver, openAIModules, active⟩

/-- A freshly constructed `OpenAILifecycleManager` (its `active_users`
set is empty whatever the record store holds). -/
def freshManager (ver : String) : Manager := openAIManager ver []

/-- `self.active_users.add(user_id)`. -/
def addUser (l : List String) (u : String) : List String :=
  if l.contains u then l else l ++ [u]

/-- `self.active_users.discard(user_id)`. -/
def removeUser (l : List String) (u : String) : List String :=
  l.filter (fun x => !(x == u))

/-- The result dictionary of install-side operations:
`{'success': True, 'plugin_id': ..., 'modules_created': [...]}` or
`{'success': False, 'error': ...}`. -/
inductive InstallResult where
  | ok (plugin_id : String) (modules_created : List String) : InstallResult
  | err (error : String) : InstallResult

def InstallResult.isOk : InstallResult → Bool
  | InstallResult.ok _ _ => true
  | InstallResult.err _ => false

/-- The result dictionary of uninstall-side operations:
`{'success': True, 'plugin_id': ..., 'deleted_modules': n}` or
`{'success': False, 'error': ...}`. -/
inductive UninstallResult where
  | ok (plugin_id : String) (deleted_modules : Nat) : UninstallResult
  | err (error : String) : UninstallResult

def UninstallResult.isOk : UninstallResult → Bool
  | UninstallResult.ok _ _ => true
  | UninstallResult.err _ => false

/-- The identifier `f"{user_id}_{plugin_slug}"` for the OpenAI plugin. -/
def pidOf (u : String) : String := u ++ "_" ++ "OpenAIPlugin"

/-- `_check_existing_plugin`: single-row lookup by (user, slug).  The
`except` branch is unreachable in this model (SELECT cannot raise). -/
def check_existing_plugin (m : Manager) (u : String) (s : Session) :
    Option PluginRow × Session :=
  execSelectPlugin s u m.plugin_slug

/-- The plugin row inserted by `_create_database_records`:
`enabled = True`, `status = 'activated'`, `config_fields = json.dumps({})`. -/
def mkPluginRow (m : Manager) (u pid : String) : PluginRow :=
  ⟨pid, m.plugin_name, m.version, true, "activated",
   Stored.jsonOf (Json.obj []), u, m.plugin_slug⟩

/-- The module row inserted by `_create_database_records` for one module
descriptor: `config_fields = json.dumps(module_data['config_fields'])`. -/
def mkModuleRow (u pid mid : String) (md : ModuleData) : ModuleRow :=
  ⟨mid, pid, md.name, Stored.jsonOf md.config_fields, u⟩

/-- The `for module_data in self.module_data:` loop of
`_create_database_records`: inserts one module row per descriptor,
accumulating `modules_created`; a raising INSERT aborts the loop and
hands the session (as mutated so far) to the `except` clause. -/
def insertModuleRows (m : Manager) (u pid : String) :
    List ModuleData → Session → List String →
    Except (String × Session) (Session × List String)
  | [], s, acc => Except.ok (s, acc)
  | md :: rest, s, acc =>
    let module_id := u ++ "_" ++ m.plugin_slug ++ "_" ++ md.name
    match execInsertModule s (mkModuleRow u pid module_id md) with
    | Except.error e => Except.error (e, s)
    | Except.ok s' => insertModuleRows m u pid rest s' (acc ++ [module_id])

/-- `_create_database_records`: inserts the plugin row and one module
row per descriptor, commits on success; any insert failure is caught,
rolled back and returned as a failure result. -/
def create_database_records (m : Manager) (u : String) (s : Session) :
    InstallResult × Session :=
  let plugin_id := u ++ "_" ++ m.plugin_slug
  match execInsertPlugin s (mkPluginRow m u plugin_id) with
  | Except.error e => (InstallResult.err e, execRollback s)
  | Except.ok s1 =>
    match insertModuleRows m u plugin_id m.module_data s1 [] with
    | Except.error (e, s2) => (InstallResult.err e, execRollback s2)
    | Except.ok (s2, ids) =>
      (InstallResult.ok plugin_id ids, execCommit s2)

/-- `_delete_database_records`: deletes the module rows, then the plugin
row; a zero `rowcount` on the plugin DELETE is reported as a failure
(without commit and without rollback — no exception was raised). -/
def delete_database_records (u pid : String) (s : Session) :
    UninstallResult × Session :=
  let (deleted_modules, s1) := execDeleteModules s pid u
  let (plugin_count, s2) := execDeletePlugin s1 pid u
  if plugin_count == 0 then
    (UninstallResult.err "Plugin not found or not owned by user", s2)
  else
    (UninstallResult.ok pid deleted_modules, execCommit s2)

/-- `_perform_user_installation`: creates the database records and
passes the result through (re-shaping a success into the same
dictionary). -/
def perform_user_installation (m : Manager) (u : String) (s : Session) :
    InstallResult × Session :=
  create_database_records m u s

/-- `_perform_user_uninstallation`: looks up the existing record, fails
with `'Plugin not found for user'` when absent, otherwise deletes the
records. -/
def perform_user_uninstallation (m : Manager) (u : String) (s : Session) :
    UninstallResult × Session :=
  let (found, s1) := check_existing_plugin m u s
  match found with
  | none => (UninstallResult.err "Plugin not found for user", s1)
  | some row =>
    let (r, s2) := delete_database_records u row.id s1
    match r with
    | UninstallResult.err e => (UninstallResult.err e, s2)
    | UninstallResult.ok _ n => (UninstallResult.ok row.id n, s2)

/-- `BaseLifecycleManager.install_for_user` (src lines 61-68): rejects a
user already in `active_users` before touching the store, otherwise
performs the installation and on success adds the user to the set. -/
def install_for_user (m : Manager) (u : String) (s : Session) :
    InstallResult × Manager × Session :=
  if m.active_users.contains u then
    (InstallResult.err "Plugin already installed for user", m, s)
  else
    let (r, s') := perform_user_installation m u s
    match r with
    | InstallResult.ok pid ids =>
      (InstallResult.ok pid ids,
       { m with active_users := addUser m.active_users u }, s')
    | InstallResult.err e => (InstallResult.err e, m, s')

/-- `BaseLifecycleManager.uninstall_for_user` (src lines 70-77): rejects
a user not in `active_users`, otherwise performs the uninstallation and
on success discards the user from the set. -/
def uninstall_for_user (m : Manager) (u : String) (s : Session) :
    UninstallResult × Manager × Session :=
  if !(m.active_users.contains u) then
    (UninstallResult.err "Plugin not installed for user", m, s)
  else
    let (r, s') := perform_user_uninstallation m u s
    match r with
    | UninstallResult.ok pid n =>
      (UninstallResult.ok pid n,
       { m with active_users := removeUser m.active_users u }, s')
    | UninstallResult.err e => (UninstallResult.err e, m, s')

/-- The result dictionary of `get_plugin_status` (the `'error'` /
`plugin_directory` keys are elided: the `except` branch is unreachable
in this model and the directory string is a constant path). -/
structure StatusResult where
  exists_flag : Bool
  status : String
  plugin_id : Option String
  plugin_info : Option PluginRow
  files_exist : Option Bool

/-- `get_plugin_status`: reports `exists=False, status='not_installed'`
when the lookup finds nothing; otherwise `status` is `'healthy'` or
`'inactive'` by `active_users` membership and `files_exist` is the
literal `True`. -/
def get_plugin_status (m : Manager) (u : String) (s : Session) :
    StatusResult × Session :=
  let (found, s1) := check_existing_plugin m u s
  match found with
  | none => (⟨false, "not_installed", none, none, none⟩, s1)
  | some row =>
    (⟨true,
      if m.active_users.contains u then "healthy" else "inactive",
      some row.id, some row, some true⟩, s1)

/-- The `user_data` dictionary built by `_export_user_data` and consumed
by `_import_user_data` (`shared_plugin_path` is elided). -/
structure UserData where
  user_id : String
  plugin_slug : String
  version : String
  user_config : Json
  module_configs : List (String × Json)

/-- `_export_user_data`: best-effort read of the plugin row's
`config_fields` and of each module row's `config_fields`; a falsy or
unparseable stored value degrades to `{}` (for the plugin) or is left
out / degraded (for a module) rather than failing. -/
def export_user_data (m : Manager) (u : String) (s : Session) :
    UserData × Session :=
  let (prow, s1) := execSelectPlugin s u m.plugin_slug
  let user_config :=
    match prow with
    | some row =>
      if storedTruthy row.config_fields then
        match storedLoads row.config_fields with
        | some j => j
        | none => Json.obj []
      else Json.obj []
    | none => Json.obj []
  let plugin_id := u ++ "_" ++ m.plugin_slug
  let (mods, s2) := execSelectModules s1 plugin_id u
  let module_configs :=
    mods.foldl
      (fun acc r =>
        if storedTruthy r.config_fields then
          match storedLoads r.config_fields with
          | some j => dictSet acc r.name j
          | none => dictSet acc r.name (Json.obj [])
        else acc)
      []
  (⟨u, m.plugin_slug, m.version, user_config, module_configs⟩, s2)

/-- `_import_user_data`: best-effort write-back; a falsy `user_config`
is skipped, module configs are written one UPDATE per entry.  Nothing
here can raise in this model, matching the swallow-all handler. -/
def import_user_data (m : Manager) (u : String) (s : Session)
    (data : UserData) : Session :=
  let s1 :=
    if pyTruthy data.user_config then
      execUpdatePluginConfig s (u ++ "_" ++ m.plugin_slug) u
        (Stored.jsonOf data.user_config)
    else s
  if !data.module_configs.isEmpty then
    data.module_configs.foldl
      (fun sacc kv =>
        execUpdateModuleConfig sacc
          (u ++ "_" ++ m.plugin_slug ++ "_" ++ kv.1) u
          (Stored.jsonOf kv.2))
      s1
  else s1

/-- The result of `update_for_user` / `update_plugin`. -/
inductive UpdateResult where
  | ok : UpdateResult
  | err (error : String) : UpdateResult

/-- Modelled from the spec: `update_for_user` lives in the external
`BaseLifecycleManager` (imported from `app.plugins`), not under `src/`;
spec section 4.4 describes it as: export the current user configuration,
uninstall the current version for the user, install the new version
through the target-version manager, then import the previously exported
configuration into the new installation, reporting success even if
the import step fails.  Returns the result and the two managers'
updated states and the session. -/
def update_for_user (m : Manager) (u : String) (s : Session)
    (newMgr : Manager) : UpdateResult × Manager × Manager × Session :=
  let (data, s1) := export_user_data m u s
  let (ur, m', s2) := uninstall_for_user m u s1
  match ur with
  | UninstallResult.err e => (UpdateResult.err e, m', newMgr, s2)
  | UninstallResult.ok _ _ =>
    let (ir, n', s3) := install_for_user newMgr u s2
    match ir with
    | InstallResult.err e => (UpdateResult.err e, m', n', s3)
    | InstallResult.ok _ _ =>
      let s4 := import_user_data n' u s3 data
      (UpdateResult.ok, m', n', s4)

/-- `update_plugin` (src lines 844-853): delegates to `update_for_user`;
its `except` wrapper is unreachable in this model. -/
def update_plugin (m : Manager) (u : String) (s : Session)
    (newMgr : Manager) : UpdateResult × Manager × Manager × Session :=
  update_for_user m u s newMgr

/-- An operation invoked on one orchestrator instance (the calls that
can touch `active_users`, plus the read-only status query). -/
inductive Op where
  | install (u : String) : Op
  | uninstall (u : String) : Op
  | statusOp (u : String) : Op

/-- Run one operation, recording which operation ran and whether it
completed successfully. -/
def stepOp (m : Manager) (s : Session) : Op → Manager × Session × (Op × Bool)
  | Op.install u =>
    let (r, m', s') := install_for_user m u s
    (m', s', (Op.install u, r.isOk))
  | Op.uninstall u =>
    let (r, m', s') := uninstall_for_user m u s
    (m', s', (Op.uninstall u, r.isOk))
  | Op.statusOp u =>
    let (r, s') := get_plugin_status m u s
    (m, s', (Op.statusOp u, r.exists_flag))

/-- Run a sequence of operations on one instance, returning the final
manager and session together with the event trace. -/
def runOps (m : Manager) (s : Session) :
    List Op → Manager × Session × List (Op × Bool)
  | [] => (m, s, [])
  | op :: rest =>
    let (m', s', ev) := stepOp m s op
    let (mf, sf, evs) := runOps m' s' rest
    (mf, sf, ev :: evs)

/-- One step of the specification's bookkeeping: a successful install
marks the user installed, a successful uninstall marks them not
installed, everything else changes nothing. -/
def foldEv (u : String) (b : Bool) (ev : Op × Bool) : Bool :=
  match ev with
  | (Op.install v, true) => if v == u then true else b
  | (Op.uninstall v, true) => if v == u then false else b
  | _ => b

/-- Whether, per the specification, the trace contains a successful
install of `u` not followed by a successful uninstall of `u`, starting
from the bookkeeping state `b`. -/
def specActiveFrom (b : Bool) (evs : List (Op × Bool)) (u : String) : Bool :=
  evs.foldl (foldEv u) b

/-- Starting from a fresh instance (nothing installed). -/
def specActive (evs : List (Op × Bool)) (u : String) : Bool :=
  specActiveFrom false evs u

/-- A source-tree entry seen by the `source_dir.rglob('*')` walk of
`_copy_plugin_files_impl`: its path parts relative to the source
directory, and whether it is a file (else a directory). -/
structure FsEntry where
  parts : List String
  isFile : Bool
deriving DecidableEq

/-- `exclude_patterns` of `_copy_plugin_files_impl`. -/
def excludePatterns : List String :=
  ["node_modules", "package-lock.json", ".git", ".gitignore",
   "__pycache__", "*.pyc", ".DS_Store", "Thumbs.db"]

/-- Python `str.replace` on character lists (left-to-right,
non-overlapping), with a fuel argument equal to the list length so the
recursion is structural; an empty pattern (which Python treats
specially and which the code never passes) leaves the list unchanged. -/
def replaceFuel (pat rep : List Char) : Nat → List Char → List Char
  | _, [] => []
  | 0, l => l
  | fuel + 1, c :: cs =>
    if pat.isPrefixOf (c :: cs) && !pat.isEmpty then
      rep ++ replaceFuel pat rep fuel ((c :: cs).drop pat.length)
    else
      c :: replaceFuel pat rep fuel cs

/-- Python `s.replace(pat, rep)` (character-list model of the string,
so that it evaluates in the kernel). -/
def strReplace (s pat rep : String) : String :=
  ⟨replaceFuel pat.data rep.data s.data.length s.data⟩

/-- Python `s.endswith(suffix)` (character-list model). -/
def strEndsWith (s suffix : String) : Bool :=
  suffix.data.isSuffixOf s.data

/-- `should_copy`: no path part may be in `exclude_patterns`, and the
entry name (the last part) may not end with a starred pattern's
suffix (`pattern.replace('*', '')`). -/
def shouldCopy (parts : List String) : Bool :=
  parts.all (fun part => !(excludePatterns.contains part)) &&
  !(excludePatterns.any (fun pat =>
      pat.data.contains '*' &&
      strEndsWith (parts.getLastD "") (strReplace pat "*" "")))

/-- The ancestor directories `mkdir(parents=True)` brings into existence
for a path: all proper non-empty prefixes. -/
def parentsOf (parts : List String) : List (List String) :=
  (List.range (parts.length - 1)).map (fun i => parts.take (i + 1))

/-- The per-entry body of the copy loop: the top-level
`lifecycle_manager.py` is skipped, excluded entries are skipped; a file
is copied (its ancestors created, its target path recorded in
`copied_files`), a directory is created (with its ancestors). -/
def copyStep (acc : List (List String) × List (List String))
    (e : FsEntry) : List (List String) × List (List String) :=
  if e.parts == ["lifecycle_manager.py"] then acc
  else if shouldCopy e.parts then
    if e.isFile then
      (acc.1 ++ parentsOf e.parts ++ [e.parts], acc.2 ++ [e.parts])
    else
      (acc.1 ++ parentsOf e.parts ++ [e.parts], acc.2)
  else acc

/-- `_copy_plugin_files_impl`: walks the entries, then copies
`lifecycle_manager.py` itself into the target root.  Returns the list
of target paths brought into existence and the `copied_files` list. -/
def copy_plugin_files_impl (entries : List FsEntry) :
    List (List String) × List (List String) :=
  let (created, copied) := entries.foldl copyStep ([], [])
  (created ++ [["lifecycle_manager.py"]],
   copied ++ [["lifecycle_manager.py"]])

/-- The content of a file in the plugin directory, abstracted to the two
observations `_validate_installation_impl` makes of it: its byte length
and the result of parsing it as JSON. -/
structure FileContent where
  size : Nat
  parsed : Option Json

/-- The plugin directory: paths (relative to `plugin_dir`, as written in
the code) mapped to file contents. -/
def PluginDir : Type := List (String × FileContent)

def dirLookup (fs : PluginDir) (p : String) : Option FileContent :=
  List.lookup p fs

/-- `required_files` of `_validate_installation_impl`. -/
def requiredFiles : List String := ["package.json", "dist/remoteEntry.js"]

/-- The result dictionary of `_validate_installation_impl`. -/
structure ValidationResult where
  valid : Bool
  error : Option String

/-- Whether `pat` occurs as a contiguous run inside `l` (Python's
substring test `pat in s` on character lists). -/
def hasSubstring (pat : List Char) : List Char → Bool
  | [] => pat.isEmpty
  | c :: cs => pat.isPrefixOf (c :: cs) || hasSubstring pat cs

/-- Python's `field not in package_data` test, negated: `some true` /
`some false` for containers, `none` when `in` raises `TypeError`
(numbers, booleans, null).  For strings `in` is the substring test. -/
def pyContains (field : String) : Json → Option Bool
  | Json.obj fields => some (fields.any (fun kv => kv.1 == field))
  | Json.arr xs =>
    some (xs.any (fun x => match x with
      | Json.str s => s == field
      | _ => false))
  | Json.str s => some (hasSubstring field.data s.data)
  | _ => none

/-- `_validate_installation_impl`: reports all missing required files in
one error; then parses `package.json` and checks `name` and `version`;
then rejects an empty bundle file; succeeds otherwise.  The exception
messages interpolated from Python exception objects are modelled as
fixed tags. -/
def validate_installation_impl (fs : PluginDir) : ValidationResult :=
  let missing := requiredFiles.filter (fun p => (dirLookup fs p).isNone)
  if !missing.isEmpty then
    ⟨false, some ("OpenAIPlugin: Missing required files: " ++
      String.intercalate ", " missing)⟩
  else
    match dirLookup fs "package.json" with
    | none =>
      ⟨false, some "OpenAIPlugin: Invalid or missing package.json: FileNotFoundError"⟩
    | some pkgFile =>
      match pkgFile.parsed with
      | none =>
        ⟨false, some "OpenAIPlugin: Invalid or missing package.json: JSONDecodeError"⟩
      | some pkg =>
        match pyContains "name" pkg with
        | none => ⟨false, some "TypeError"⟩
        | some false =>
          ⟨false, some "OpenAIPlugin: package.json missing required field: name"⟩
        | some true =>
          match pyContains "version" pkg with
          | none => ⟨false, some "TypeError"⟩
          | some false =>
            ⟨false, some "OpenAIPlugin: package.json missing required field: version"⟩
          | some true =>
            let bundleSize :=
              match dirLookup fs "dist/remoteEntry.js" with
              | some f => f.size
              | none => 0
            if bundleSize == 0 then
              ⟨false, some "OpenAIPlugin: Bundle file (remoteEntry.js) is empty"⟩
            else ⟨true, none⟩

/-- The data-model key invariant of the record store (spec section 3:
an installation record's identity is the deterministic key derived from
the user identifier and the plugin slug). -/
def wellKeyed (db : DB) : Bool :=
  db.plugins.all (fun p => p.id == p.user_id ++ "_" ++ p.plugin_slug)

/-- The module identifier `f"{user_id}_{plugin_slug}_{name}"` of the
status module. -/
def midSOf (u : String) : String :=
  u ++ "_" ++ "OpenAIPlugin" ++ "_" ++ "ComponentOpenAIStatus"

/-- The module identifier of the chat module. -/
def midCOf (u : String) : String :=
  u ++ "_" ++ "OpenAIPlugin" ++ "_" ++ "ComponentOpenAIChat"

/-- The plugin row created by a version-`ver` install for user `u`. -/
def prowOf (ver u : String) : PluginRow :=
  ⟨pidOf u, "OpenAIPlugin", ver, true, "activated",
   Stored.jsonOf (Json.obj []), u, "OpenAIPlugin"⟩

/-- The status-module row created by an install for user `u`. -/
def rowSOf (u : String) : ModuleRow :=
  ⟨midSOf u, pidOf u, "ComponentOpenAIStatus", Stored.jsonOf statusSchema, u⟩

/-- The chat-module row created by an install for user `u`. -/
def rowCOf (u : String) : ModuleRow :=
  ⟨midCOf u, pidOf u, "ComponentOpenAIChat", Stored.jsonOf chatSchema, u⟩

/-- "User `u` has no existing records" for this plugin, under the record
store's derived-key data model: no plugin row under the derived plugin
id or under `(u, slug)`, and no module rows under the derived module
ids or attached to the derived plugin id. -/
def noRecordsFor (db : DB) (u : String) : Bool :=
  db.plugins.all (fun p => !(p.id == pidOf u)) &&
  db.plugins.all (fun p =>
    !(p.user_id == u && p.plugin_slug == "OpenAIPlugin")) &&
  db.modules.all (fun r => !(r.id == midSOf u)) &&
  db.modules.all (fun r => !(r.id == midCOf u)) &&
  db.modules.all (fun r => !(r.plugin_id == pidOf u && r.user_id == u))

/-- Appending to a string on the left is injective (`u ++ a = u ++ b`
forces `a = b`), stated on the boolean equality test. -/
theorem str_append_beq (u a b : String) :
    ((u ++ a) == (u ++ b)) = (a == b) := by
  by_cases h : a = b
  · simp [h]
  · have h2 : u ++ a ≠ u ++ b := by
      intro hh
      apply h
      cases u; cases a; cases b
      simp_all [String.ext_iff]
    simp [h, h2]

theorem contains_append_single (l : List String) (v u : String) :
    ((l ++ [v]).contains u) = (l.contains u || u == v) := by
  simp; rfl

theorem contains_filter_ne (l : List String) (v u : String) :
    ((l.filter (fun x => !(x == v))).contains u) =
      (l.contains u && !(u == v)) := by
  simp; rfl

theorem execInsertPlugin_ok (s : Session) (row : PluginRow) (s' : Session)
    (h : execInsertPlugin s row = Except.ok s') :
    s'.committed = s.committed := by
  unfold execInsertPlugin at h
  split at h
  · cases h
  · cases h; rfl

theorem execInsertModule_ok (s : Session) (row : ModuleRow) (s' : Session)
    (h : execInsertModule s row = Except.ok s') :
    s'.committed = s.committed := by
  unfold execInsertModule at h
  split at h
  · cases h
  · cases h; rfl

/-- The module-insert loop never changes the committed snapshot, whether
it succeeds or aborts. -/
theorem insertModuleRows_committed (m : Manager) (u pid : String) :
    ∀ (mods : List ModuleData) (s : Session) (acc : List String),
      (∀ s2 ids, insertModuleRows m u pid mods s acc = Except.ok (s2, ids) →
        s2.committed = s.committed) ∧
      (∀ e s2, insertModuleRows m u pid mods s acc = Except.error (e, s2) →
        s2.committed = s.committed) := by
  intro mods
  induction mods with
  | nil =>
    intro s acc
    refine ⟨fun s2 ids h => ?_, fun e s2 h => ?_⟩
    · cases h; rfl
    · cases h
  | cons md rest ih =>
    intro s acc
    refine ⟨fun s2 ids h => ?_, fun e s2 h => ?_⟩
    · unfold insertModuleRows at h
      cases hm : execInsertModule s
          (mkModuleRow u pid (u ++ "_" ++ m.plugin_slug ++ "_" ++ md.name) md) with
      | error e' => simp only [hm] at h; cases h
      | ok s1 =>
        simp only [hm] at h
        have := (ih s1 (acc ++ [u ++ "_" ++ m.plugin_slug ++ "_" ++ md.name])).1
          s2 ids h
        rw [this, execInsertModule_ok s _ s1 hm]
    · unfold insertModuleRows at h
      cases hm : execInsertModule s
          (mkModuleRow u pid (u ++ "_" ++ m.plugin_slug ++ "_" ++ md.name) md) with
      | error e' => simp only [hm] at h; cases h; rfl
      | ok s1 =>
        simp only [hm] at h
        have := (ih s1 (acc ++ [u ++ "_" ++ m.plugin_slug ++ "_" ++ md.name])).2
          e s2 h
        rw [this, execInsertModule_ok s _ s1 hm]

/-- C2: `install_for_user` on a user already in `ActiveUserSet` returns
the already-installed failure and leaves the manager and the session
(in particular the statement log) untouched: no insert, commit or
rollback is issued. -/
theorem c2_already_installed_no_write (m : Manager) (u : String)
    (s : Session) (h : m.active_users.contains u = true) :
    install_for_user m u s =
      (InstallResult.err "Plugin already installed for user", m, s) ∧
    (install_for_user m u s).2.2.log = s.log := by
  have h' : u ∈ m.active_users := by simpa using h
  refine ⟨?_, ?_⟩ <;> simp [install_for_user, h']

/-- Witness for C2 at a concrete manager with `"u1"` already active. -/
theorem c2_witness :
    install_for_user (openAIManager "1.0.0" ["u1"]) "u1" emptySession =
      (InstallResult.err "Plugin already installed for user",
       openAIManager "1.0.0" ["u1"], emptySession) ∧
    (install_for_user (openAIManager "1.0.0" ["u1"]) "u1"
      emptySession).2.2.log = emptySession.log :=
  c2_already_installed_no_write (openAIManager "1.0.0" ["u1"]) "u1"
    emptySession (by rfl)

/-- C10: whenever `get_plugin_status` finds an existing plugin record,
the reported status is `'healthy'` exactly when the user is in this
instance's `active_users` set and `'inactive'` otherwise — a function of
set membership alone — and `files_exist` is reported as the literal
`True` with no file-system check. -/
theorem c10_status_from_active_set (m : Manager) (u : String) (s : Session)
    (h : ((get_plugin_status m u s).1).exists_flag = true) :
    ((get_plugin_status m u s).1).status =
      (if m.active_users.contains u then "healthy" else "inactive") ∧
    ((get_plugin_status m u s).1).files_exist = some true := by
  cases hf : s.db.plugins.find?
      (fun p => p.user_id == u && p.plugin_slug == m.plugin_slug) with
  | none =>
    simp [get_plugin_status, check_existing_plugin, execSelectPlugin, hf] at h
  | some row =>
    simp [get_plugin_status, check_existing_plugin, execSelectPlugin, hf]

/-- Witness for C10 at a concrete session holding the `"u1"` record. -/
theorem c10_witness :
    ((get_plugin_status (openAIManager "1.0.0" ["u1"]) "u1"
      ⟨emptyDB, ⟨[prowOf "1.0.0" "u1"], []⟩, []⟩).1).status = "healthy" ∧
    ((get_plugin_status (openAIManager "1.0.0" ["u1"]) "u1"
      ⟨emptyDB, ⟨[prowOf "1.0.0" "u1"], []⟩, []⟩).1).files_exist =
        some true := by
  have h := c10_status_from_active_set (openAIManager "1.0.0" ["u1"]) "u1"
    ⟨emptyDB, ⟨[prowOf "1.0.0" "u1"], []⟩, []⟩ (by rfl)
  exact ⟨h.1.trans (by rfl), h.2⟩

/-- C4, counterexample: on a successful multi-statement write,
`_create_database_records` itself issues the commit on the transactional
handle — it does not leave the commit to the caller. -/
theorem c4_counterexample :
    ((create_database_records (freshManager "1.0.0") "u1"
        emptySession).2.log.contains DbOp.commit = true) ∧
    ((create_database_records (freshManager "1.0.0") "u1"
        emptySession).1.isOk = true) := by
  decide

/-- C4, amended: `_create_database_records` commits the successful
multi-statement write itself (the last statement on the handle is the
commit, and the committed snapshot equals the current state); on any
insert failure it issues a rollback (the last statement on the handle),
restores the last committed snapshot, and returns the error as a
failure result. -/
theorem c4_amended_commit_and_rollback (m : Manager) (u : String)
    (s : Session) :
    (∀ pid ids s', create_database_records m u s =
        (InstallResult.ok pid ids, s') →
      s'.log.getLast? = some DbOp.commit ∧ s'.committed = s'.db) ∧
    (∀ e s', create_database_records m u s = (InstallResult.err e, s') →
      s'.log.getLast? = some DbOp.rollback ∧ s'.db = s.committed) := by
  constructor
  · intro pid ids s' h
    unfold create_database_records at h
    cases hp : execInsertPlugin s (mkPluginRow m u (u ++ "_" ++ m.plugin_slug)) with
    | error e' => simp only [hp] at h; cases h
    | ok s1 =>
      simp only [hp] at h
      cases hr : insertModuleRows m u (u ++ "_" ++ m.plugin_slug)
          m.module_data s1 [] with
      | error es =>
        cases es with
        | mk e2 s2 => simp only [hr] at h; cases h
      | ok p =>
        cases p with
        | mk s2 ids2 =>
          simp only [hr] at h
          cases h
          exact ⟨List.getLast?_concat _, rfl⟩
  · intro e s' h
    unfold create_database_records at h
    cases hp : execInsertPlugin s (mkPluginRow m u (u ++ "_" ++ m.plugin_slug)) with
    | error e' =>
      simp only [hp] at h
      cases h
      exact ⟨List.getLast?_concat _, rfl⟩
    | ok s1 =>
      simp only [hp] at h
      cases hr : insertModuleRows m u (u ++ "_" ++ m.plugin_slug)
          m.module_data s1 [] with
      | error es =>
        cases es with
        | mk e2 s2 =>
          simp only [hr] at h
          cases h
          refine ⟨List.getLast?_concat _, ?_⟩
          have h2 := (insertModuleRows_committed m u
            (u ++ "_" ++ m.plugin_slug) m.module_data s1 []).2 _ _ hr
          have h1 := execInsertPlugin_ok s _ s1 hp
          simp [execRollback, h2, h1]
      | ok p =>
        cases p with
        | mk s2 ids2 => simp only [hr] at h; cases h

/-- Witness for C4's amended theorem: a successful create on an empty
store ends in a commit, and a create hitting a duplicate key ends in a
rollback with the error returned. -/
theorem c4_amended_witness :
    ((create_database_records (freshManager "1.0.0") "u1"
        emptySession).2.log.getLast? = some DbOp.commit) ∧
    ((create_database_records (freshManager "1.0.0") "u1"
        ⟨emptyDB, ⟨[prowOf "1.0.0" "u1"], []⟩, []⟩).2.log.getLast? =
      some DbOp.rollback) := by
  constructor
  · exact ((c4_amended_commit_and_rollback (freshManager "1.0.0") "u1"
      emptySession).1 _ _ _ (by rfl)).1
  · exact ((c4_amended_commit_and_rollback (freshManager "1.0.0") "u1"
      ⟨emptyDB, ⟨[prowOf "1.0.0" "u1"], []⟩, []⟩).2 _ _ (by rfl)).1

/-- Full characterization of when `_validate_installation_impl` reports
`valid=True`: both required files present, the manifest parses and
contains `name` and `version`, and the bundle is non-empty. -/
theorem validate_valid_iff (fs : PluginDir) :
    ((validate_installation_impl fs).valid = true) ↔
      ((∃ f pkg, dirLookup fs "package.json" = some f ∧
          f.parsed = some pkg ∧
          pyContains "name" pkg = some true ∧
          pyContains "version" pkg = some true) ∧
       (∃ g, dirLookup fs "dist/remoteEntry.js" = some g ∧ g.size ≠ 0)) := by
  cases hA : dirLookup fs "package.json" with
  | none => simp [validate_installation_impl, requiredFiles, hA]
  | some f =>
    cases hB : dirLookup fs "dist/remoteEntry.js" with
    | none => simp [validate_installation_impl, requiredFiles, hA, hB]
    | some g =>
      cases hP : f.parsed with
      | none => simp [validate_installation_impl, requiredFiles, hA, hB, hP]
      | some pkg =>
        cases hN : pyContains "name" pkg with
        | none => simp [validate_installation_impl, requiredFiles, hA, hB, hP, hN]
        | some bn =>
          cases bn with
          | false =>
            simp [validate_installation_impl, requiredFiles, hA, hB, hP, hN]
          | true =>
            cases hV : pyContains "version" pkg with
            | none =>
              simp [validate_installation_impl, requiredFiles, hA, hB, hP, hN, hV]
            | some bv =>
              cases bv with
              | false =>
                simp [validate_installation_impl, requiredFiles, hA, hB, hP, hN, hV]
              | true =>
                by_cases hz : g.size = 0 <;>
                  simp [validate_installation_impl, requiredFiles, hA, hB, hP,
                    hN, hV, hz]

/-- C8: validation of a target directory reports every absent required
file (`package.json`, `dist/remoteEntry.js`) in one error when any is
missing; reports `valid=False` when the manifest is unparseable or
lacks a `name` or `version` field; reports `valid=False` when the
bundle file exists with zero length; and reports `valid=True` exactly
when all of these checks pass. -/
theorem c8_validation (fs : PluginDir) :
    ((requiredFiles.filter (fun p => (dirLookup fs p).isNone)).isEmpty
        = false →
      validate_installation_impl fs =
        ⟨false, some ("OpenAIPlugin: Missing required files: " ++
          String.intercalate ", "
            (requiredFiles.filter (fun p => (dirLookup fs p).isNone)))⟩) ∧
    (∀ f, dirLookup fs "package.json" = some f → f.parsed = none →
      (validate_installation_impl fs).valid = false) ∧
    (∀ f pkg, dirLookup fs "package.json" = some f →
      f.parsed = some pkg →
      (pyContains "name" pkg = some false ∨
        pyContains "version" pkg = some false) →
      (validate_installation_impl fs).valid = false) ∧
    (∀ g, dirLookup fs "dist/remoteEntry.js" = some g → g.size = 0 →
      (validate_installation_impl fs).valid = false) ∧
    (((validate_installation_impl fs).valid = true) ↔
      ((∃ f pkg, dirLookup fs "package.json" = some f ∧
          f.parsed = some pkg ∧
          pyContains "name" pkg = some true ∧
          pyContains "version" pkg = some true) ∧
       (∃ g, dirLookup fs "dist/remoteEntry.js" = some g ∧
          g.size ≠ 0))) := by
  refine ⟨?_, ?_, ?_, ?_, validate_valid_iff fs⟩
  · intro hmiss
    unfold validate_installation_impl
    simp only [hmiss]
    rfl
  · intro f hA hP
    cases hv : (validate_installation_impl fs).valid with
    | false => rfl
    | true =>
      rcases (validate_valid_iff fs).1 hv with ⟨⟨f', pkg', hA', hP', _, _⟩, _⟩
      rw [hA] at hA'
      cases hA'
      rw [hP] at hP'
      cases hP'
  · intro f pkg hA hP hbad
    cases hv : (validate_installation_impl fs).valid with
    | false => rfl
    | true =>
      rcases (validate_valid_iff fs).1 hv with ⟨⟨f', pkg', hA', hP', hN', hV'⟩, _⟩
      rw [hA] at hA'
      cases hA'
      rw [hP] at hP'
      cases hP'
      cases hbad with
      | inl hb => rw [hb] at hN'; cases hN'
      | inr hb => rw [hb] at hV'; cases hV'
  · intro g hB hz
    cases hv : (validate_installation_impl fs).valid with
    | false => rfl
    | true =>
      rcases (validate_valid_iff fs).1 hv with ⟨_, ⟨g', hB', hz'⟩⟩
      rw [hB] at hB'
      cases hB'
      exact absurd hz hz'

/-- Witness for C8 at concrete directories: a directory missing the
bundle names it among the missing files; a well-formed directory with an
empty bundle is invalid; a fully well-formed directory is valid. -/
theorem c8_witness :
    (validate_installation_impl
        [("package.json", ⟨10, some (Json.obj [("name", Json.str "x"),
          ("version", Json.str "1")])⟩)] =
      ⟨false, some "OpenAIPlugin: Missing required files: dist/remoteEntry.js"⟩) ∧
    ((validate_installation_impl
        [("package.json", ⟨10, some (Json.obj [("name", Json.str "x"),
          ("version", Json.str "1")])⟩),
         ("dist/remoteEntry.js", ⟨0, none⟩)]).valid = false) ∧
    ((validate_installation_impl
        [("package.json", ⟨10, some (Json.obj [("name", Json.str "x"),
          ("version", Json.str "1")])⟩),
         ("dist/remoteEntry.js", ⟨57, none⟩)]).valid = true) := by
  refine ⟨?_, ?_, ?_⟩
  · exact ((c8_validation _).1 (by rfl)).trans (by rfl)
  · exact (c8_validation _).2.2.2.1 _ (by rfl) (by rfl)
  · exact ((c8_validation _).2.2.2.2).2
      ⟨⟨_, _, rfl, rfl, by rfl, by rfl⟩, ⟨_, rfl, by decide⟩⟩

/-- Membership in the list of target paths accumulated by the copy
loop. -/
theorem foldl_copyStep_created (entries : List FsEntry) :
    ∀ (acc : List (List String) × List (List String)) (p : List String),
      p ∈ (entries.foldl copyStep acc).1 ↔
        p ∈ acc.1 ∨ ∃ e, e ∈ entries ∧
          ¬(e.parts = ["lifecycle_manager.py"]) ∧
          shouldCopy e.parts = true ∧
          (p = e.parts ∨ p ∈ parentsOf e.parts) := by
  induction entries with
  | nil => intro acc p; simp
  | cons e rest ih =>
    intro acc p
    rw [List.foldl_cons, ih]
    by_cases h1 : e.parts = ["lifecycle_manager.py"]
    · have hstep : copyStep acc e = acc := by simp [copyStep, h1]
      rw [hstep]
      constructor
      · rintro (hp | ⟨e', he', hne, hsc, hor⟩)
        · exact Or.inl hp
        · exact Or.inr ⟨e', List.mem_cons_of_mem _ he', hne, hsc, hor⟩
      · rintro (hp | ⟨e', he', hne, hsc, hor⟩)
        · exact Or.inl hp
        · rcases List.mem_cons.1 he' with he'' | he''
          · rw [he''] at hne; exact absurd h1 hne
          · exact Or.inr ⟨e', he'', hne, hsc, hor⟩
    · by_cases h2 : shouldCopy e.parts = true
      · have hstep : (copyStep acc e).1 =
            acc.1 ++ parentsOf e.parts ++ [e.parts] := by
          by_cases h3 : e.isFile <;> simp [copyStep, h1, h2, h3]
        rw [hstep]
        simp only [List.mem_append, List.mem_singleton]
        constructor
        · rintro (((hp | hp) | hp) | ⟨e', he', hne, hsc, hor⟩)
          · exact Or.inl hp
          · exact Or.inr ⟨e, List.mem_cons_self _ _, h1, h2, Or.inr hp⟩
          · exact Or.inr ⟨e, List.mem_cons_self _ _, h1, h2, Or.inl hp⟩
          · exact Or.inr ⟨e', List.mem_cons_of_mem _ he', hne, hsc, hor⟩
        · rintro (hp | ⟨e', he', hne, hsc, hor⟩)
          · exact Or.inl (Or.inl (Or.inl hp))
          · rcases List.mem_cons.1 he' with he'' | he''
            · rw [he''] at hor
              rcases hor with hor | hor
              · exact Or.inl (Or.inr hor)
              · exact Or.inl (Or.inl (Or.inr hor))
            · exact Or.inr ⟨e', he'', hne, hsc, hor⟩
      · have hstep : copyStep acc e = acc := by
          simp [copyStep, h1, h2]
        rw [hstep]
        constructor
        · rintro (hp | ⟨e', he', hne, hsc, hor⟩)
          · exact Or.inl hp
          · exact Or.inr ⟨e', List.mem_cons_of_mem _ he', hne, hsc, hor⟩
        · rintro (hp | ⟨e', he', hne, hsc, hor⟩)
          · exact Or.inl hp
          · rcases List.mem_cons.1 he' with he'' | he''
            · rw [he''] at hsc; exact absurd hsc h2
            · exact Or.inr ⟨e', he'', hne, hsc, hor⟩

/-- Membership in the `copied_files` list accumulated by the copy
loop. -/
theorem foldl_copyStep_copied (entries : List FsEntry) :
    ∀ (acc : List (List String) × List (List String)) (p : List String),
      p ∈ (entries.foldl copyStep acc).2 ↔
        p ∈ acc.2 ∨ ∃ e, e ∈ entries ∧
          ¬(e.parts = ["lifecycle_manager.py"]) ∧
          shouldCopy e.parts = true ∧ e.isFile = true ∧ p = e.parts := by
  induction entries with
  | nil => intro acc p; simp
  | cons e rest ih =>
    intro acc p
    rw [List.foldl_cons, ih]
    by_cases h1 : e.parts = ["lifecycle_manager.py"]
    · have hstep : copyStep acc e = acc := by simp [copyStep, h1]
      rw [hstep]
      constructor
      · rintro (hp | ⟨e', he', hne, hsc, hf, hor⟩)
        · exact Or.inl hp
        · exact Or.inr ⟨e', List.mem_cons_of_mem _ he', hne, hsc, hf, hor⟩
      · rintro (hp | ⟨e', he', hne, hsc, hf, hor⟩)
        · exact Or.inl hp
        · rcases List.mem_cons.1 he' with he'' | he''
          · rw [he''] at hne; exact absurd h1 hne
          · exact Or.inr ⟨e', he'', hne, hsc, hf, hor⟩
    · by_cases h2 : shouldCopy e.parts = true
      · by_cases h3 : e.isFile = true
        · have hstep : (copyStep acc e).2 = acc.2 ++ [e.parts] := by
            simp [copyStep, h1, h2, h3]
          rw [hstep]
          simp only [List.mem_append, List.mem_singleton]
          constructor
          · rintro ((hp | hp) | ⟨e', he', hne, hsc, hf, hor⟩)
            · exact Or.inl hp
            · exact Or.inr ⟨e, List.mem_cons_self _ _, h1, h2, h3, hp⟩
            · exact Or.inr ⟨e', List.mem_cons_of_mem _ he', hne, hsc, hf, hor⟩
          · rintro (hp | ⟨e', he', hne, hsc, hf, hor⟩)
            · exact Or.inl (Or.inl hp)
            · rcases List.mem_cons.1 he' with he'' | he''
              · rw [he''] at hor; exact Or.inl (Or.inr hor)
              · exact Or.inr ⟨e', he'', hne, hsc, hf, hor⟩
        · have hstep : (copyStep acc e).2 = acc.2 := by
            simp [copyStep, h1, h2, h3]
          rw [hstep]
          constructor
          · rintro (hp | ⟨e', he', hne, hsc, hf, hor⟩)
            · exact Or.inl hp
            · exact Or.inr ⟨e', List.mem_cons_of_mem _ he', hne, hsc, hf, hor⟩
          · rintro (hp | ⟨e', he', hne, hsc, hf, hor⟩)
            · exact Or.inl hp
            · rcases List.mem_cons.1 he' with he'' | he''
              · rw [he''] at hf; exact absurd hf h3
              · exact Or.inr ⟨e', he'', hne, hsc, hf, hor⟩
      · have hstep : copyStep acc e = acc := by simp [copyStep, h1, h2]
        rw [hstep]
        constructor
        · rintro (hp | ⟨e', he', hne, hsc, hf, hor⟩)
          · exact Or.inl hp
          · exact Or.inr ⟨e', List.mem_cons_of_mem _ he', hne, hsc, hf, hor⟩
        · rintro (hp | ⟨e', he', hne, hsc, hf, hor⟩)
          · exact Or.inl hp
          · rcases List.mem_cons.1 he' with he'' | he''
            · rw [he''] at hsc; exact absurd hsc h2
            · exact Or.inr ⟨e', he'', hne, hsc, hf, hor⟩

/-- A member of `parentsOf q` is the prefix of `q` of its own (shorter)
length. -/
theorem mem_parentsOf {p q : List String} (h : p ∈ parentsOf q) :
    q.take p.length = p ∧ p.length < q.length := by
  unfold parentsOf at h
  rcases List.mem_map.1 h with ⟨i, hi, hp⟩
  have hi' := List.mem_range.1 hi
  have hlen : (q.take (i + 1)).length = i + 1 := by
    rw [List.length_take]
    omega
  constructor
  · rw [← hp, hlen]
  · rw [← hp, hlen]; omega

/-- An entry with an excluded path segment fails `should_copy`. -/
theorem shouldCopy_false_of_segment {p : List String}
    (h : p.any (fun part => excludePatterns.contains part) = true) :
    shouldCopy p = false := by
  unfold shouldCopy
  have : p.all (fun part => !(excludePatterns.contains part)) = false := by
    rcases List.any_eq_true.1 h with ⟨x, hx, hcx⟩
    by_contra hall
    have hall' := List.all_eq_true.1 (eq_true_of_ne_false hall) x hx
    rw [hcx] at hall'
    cases hall'
  rw [this]
  rfl

/-- An entry whose name ends with a starred pattern's suffix fails
`should_copy`. -/
theorem shouldCopy_false_of_suffix {p : List String}
    (h : excludePatterns.any (fun pat =>
      pat.data.contains '*' &&
      strEndsWith (p.getLastD "") (strReplace pat "*" "")) = true) :
    shouldCopy p = false := by
  unfold shouldCopy
  rw [h]
  simp

/-- C9, counterexample: the directory `a.pyc` matches the excluded
suffix pattern `*.pyc` (so `should_copy` rejects it), yet staging a
source containing the file `a.pyc/b.txt` creates the directory entry
`a.pyc` in the target. -/
theorem c9_counterexample :
    strEndsWith "a.pyc" (strReplace "*.pyc" "*" "") = true ∧
    shouldCopy ["a.pyc"] = false ∧
    ["a.pyc"] ∈ (copy_plugin_files_impl
      [⟨["a.pyc"], false⟩, ⟨["a.pyc", "b.txt"], true⟩]).1 := by
  decide

/-- C9, amended: an entry with a path segment in the exclusion set is
never created in the target and never listed among the copied paths;
an entry whose name ends with an excluded suffix pattern is never
itself copied or listed, and — when it is a file (using that files have
no descendants) — never created; but a suffix-excluded directory can
still be created as an ancestor of a non-excluded descendant. -/
theorem c9_staging_exclusions (entries : List FsEntry) (e : FsEntry)
    (he : e ∈ entries)
    (hleaf : ∀ e' ∈ entries, e.isFile = true →
      e'.parts.take e.parts.length = e.parts → e'.parts = e.parts) :
    (e.parts.any (fun part => excludePatterns.contains part) = true →
      e.parts ∉ (copy_plugin_files_impl entries).1) ∧
    (excludePatterns.any (fun pat =>
        pat.data.contains '*' &&
        strEndsWith (e.parts.getLastD "") (strReplace pat "*" "")) = true →
      e.isFile = true → e.parts ∉ (copy_plugin_files_impl entries).1) ∧
    (shouldCopy e.parts = false →
      e.parts ∉ (copy_plugin_files_impl entries).2) := by
  have hcr : ∀ p, p ∈ (copy_plugin_files_impl entries).1 ↔
      (p ∈ (entries.foldl copyStep ([], [])).1 ∨
        p = ["lifecycle_manager.py"]) := by
    intro p
    show p ∈ (entries.foldl copyStep ([], [])).1 ++
      [["lifecycle_manager.py"]] ↔ _
    simp [List.mem_append]
  have hcp : ∀ p, p ∈ (copy_plugin_files_impl entries).2 ↔
      (p ∈ (entries.foldl copyStep ([], [])).2 ∨
        p = ["lifecycle_manager.py"]) := by
    intro p
    show p ∈ (entries.foldl copyStep ([], [])).2 ++
      [["lifecycle_manager.py"]] ↔ _
    simp [List.mem_append]
  refine ⟨?_, ?_, ?_⟩
  · intro hseg hmem
    have hsc := shouldCopy_false_of_segment hseg
    rcases (hcr e.parts).1 hmem with hin | hlmp
    · rcases (foldl_copyStep_created entries ([], []) e.parts).1 hin with
        hacc | ⟨e', he', hne, hsc', hor⟩
      · simp at hacc
      · rcases hor with hor | hor
        · rw [hor] at hsc; rw [hsc'] at hsc; cases hsc
        · rcases mem_parentsOf hor with ⟨htake, _⟩
          rcases List.any_eq_true.1 hseg with ⟨x, hx, hcx⟩
          have hx' : x ∈ e'.parts := by
            rw [← htake] at hx
            exact List.take_subset _ _ hx
          have : e'.parts.any
              (fun part => excludePatterns.contains part) = true :=
            List.any_eq_true.2 ⟨x, hx', hcx⟩
          rw [shouldCopy_false_of_segment this] at hsc'
          cases hsc'
    · rw [hlmp] at hseg
      exact absurd hseg (by decide)
  · intro hsuf hfile hmem
    have hsc := shouldCopy_false_of_suffix hsuf
    rcases (hcr e.parts).1 hmem with hin | hlmp
    · rcases (foldl_copyStep_created entries ([], []) e.parts).1 hin with
        hacc | ⟨e', he', hne, hsc', hor⟩
      · simp at hacc
      · rcases hor with hor | hor
        · rw [hor] at hsc; rw [hsc'] at hsc; cases hsc
        · rcases mem_parentsOf hor with ⟨htake, hlt⟩
          have := hleaf e' he' hfile htake
          rw [this] at hlt
          omega
    · rw [hlmp] at hsuf
      exact absurd hsuf (by decide)
  · intro hsc hmem
    rcases (hcp e.parts).1 hmem with hin | hlmp
    · rcases (foldl_copyStep_copied entries ([], []) e.parts).1 hin with
        hacc | ⟨e', he', hne, hsc', hf, hor⟩
      · simp at hacc
      · rw [hor] at hsc; rw [hsc'] at hsc; cases hsc
    · rw [hlmp] at hsc
      exact absurd hsc (by decide)

/-- Witness for C9's amended theorem at a concrete source tree: the
`node_modules` directory (segment-excluded) and the `x.pyc` file
(suffix-excluded) are neither created nor listed. -/
theorem c9_witness :
    ["node_modules"] ∉ (copy_plugin_files_impl
      [⟨["node_modules"], false⟩, ⟨["x.pyc"], true⟩,
       ⟨["src", "index.js"], true⟩]).1 ∧
    ["x.pyc"] ∉ (copy_plugin_files_impl
      [⟨["node_modules"], false⟩, ⟨["x.pyc"], true⟩,
       ⟨["src", "index.js"], true⟩]).1 ∧
    ["x.pyc"] ∉ (copy_plugin_files_impl
      [⟨["node_modules"], false⟩, ⟨["x.pyc"], true⟩,
       ⟨["src", "index.js"], true⟩]).2 := by
  have h1 := c9_staging_exclusions
    [⟨["node_modules"], false⟩, ⟨["x.pyc"], true⟩, ⟨["src", "index.js"], true⟩]
    ⟨["node_modules"], false⟩ (by decide)
    (by intro e' he' hf; cases hf)
  have h2 := c9_staging_exclusions
    [⟨["node_modules"], false⟩, ⟨["x.pyc"], true⟩, ⟨["src", "index.js"], true⟩]
    ⟨["x.pyc"], true⟩ (by decide)
    (by
      intro e' he' hf htake
      fin_cases he' <;> revert htake <;> decide)
  exact ⟨h1.1 (by decide), h2.2.1 (by decide) rfl, h2.2.2 (by decide)⟩

/-- One operation changes `active_users` membership exactly as the
specification's bookkeeping dictates. -/
theorem stepOp_active (m : Manager) (s : Session) (op : Op) (u : String) :
    ((stepOp m s op).1).active_users.contains u =
      foldEv u (m.active_users.contains u) ((stepOp m s op).2.2) := by
  cases op with
  | statusOp v =>
    cases hb : ((get_plugin_status m v s).1).exists_flag <;>
      simp [stepOp, foldEv, hb]
  | install v =>
    by_cases hc : m.active_users.contains v = true
    · have hv : v ∈ m.active_users := by simpa using hc
      simp [stepOp, install_for_user, hv, foldEv, InstallResult.isOk]
    · have hc' : m.active_users.contains v = false := by
        cases hcc : m.active_users.contains v
        · rfl
        · exact absurd hcc hc
      have hv : v ∉ m.active_users := by
        intro hvv
        rw [List.contains_eq_any_beq] at hc'
        have : m.active_users.any (fun x => v == x) = true :=
          List.any_eq_true.2 ⟨v, hvv, by simp⟩
        rw [this] at hc'
        cases hc'
      cases hr : perform_user_installation m v s with
      | mk r s' =>
        cases r with
        | ok pid ids =>
          have hstep : (stepOp m s (Op.install v)).1 =
              { m with active_users := addUser m.active_users v } := by
            simp [stepOp, install_for_user, hv, hr]
          have hev : (stepOp m s (Op.install v)).2.2 =
              (Op.install v, true) := by
            simp [stepOp, install_for_user, hv, hr, InstallResult.isOk]
          rw [hstep, hev]
          show (addUser m.active_users v).contains u = _
          rw [addUser, if_neg (by rw [hc']; exact Bool.false_ne_true),
            contains_append_single]
          show _ = if (v == u) = true then true else m.active_users.contains u
          by_cases huv : u = v
          · subst huv; simp
          · have h1 : (u == v) = false := by simp [huv]
            have hvu : ¬v = u := fun hh => huv hh.symm
            have h2 : (v == u) = false := by simp [hvu]
            rw [h1, h2]
            simp
        | err e =>
          have hstep : (stepOp m s (Op.install v)).1 = m := by
            simp [stepOp, install_for_user, hv, hr]
          have hev : (stepOp m s (Op.install v)).2.2 =
              (Op.install v, false) := by
            simp [stepOp, install_for_user, hv, hr, InstallResult.isOk]
          rw [hstep, hev]
          rfl
  | uninstall v =>
    by_cases hc : m.active_users.contains v = true
    · have hv : v ∈ m.active_users := by simpa using hc
      cases hr : perform_user_uninstallation m v s with
      | mk r s' =>
        cases r with
        | ok pid n =>
          have hstep : (stepOp m s (Op.uninstall v)).1 =
              { m with active_users := removeUser m.active_users v } := by
            simp [stepOp, uninstall_for_user, hv, hr]
          have hev : (stepOp m s (Op.uninstall v)).2.2 =
              (Op.uninstall v, true) := by
            simp [stepOp, uninstall_for_user, hv, hr, UninstallResult.isOk]
          rw [hstep, hev]
          show (removeUser m.active_users v).contains u = _
          rw [removeUser, contains_filter_ne]
          show _ = if (v == u) = true then false else m.active_users.contains u
          by_cases huv : u = v
          · subst huv; simp
          · have h1 : (u == v) = false := by simp [huv]
            have hvu : ¬v = u := fun hh => huv hh.symm
            have h2 : (v == u) = false := by simp [hvu]
            rw [h1, h2]
            simp
        | err e =>
          have hstep : (stepOp m s (Op.uninstall v)).1 = m := by
            simp [stepOp, uninstall_for_user, hv, hr]
          have hev : (stepOp m s (Op.uninstall v)).2.2 =
              (Op.uninstall v, false) := by
            simp [stepOp, uninstall_for_user, hv, hr, UninstallResult.isOk]
          rw [hstep, hev]
          rfl
    · have hv : v ∉ m.active_users := by
        intro hvv
        exact hc (by simpa using hvv)
      have hstep : (stepOp m s (Op.uninstall v)).1 = m := by
        simp [stepOp, uninstall_for_user, hv]
      have hev : (stepOp m s (Op.uninstall v)).2.2 =
          (Op.uninstall v, false) := by
        simp [stepOp, uninstall_for_user, hv, UninstallResult.isOk]
      rw [hstep, hev]
      rfl

/-- Running a trace of operations keeps `active_users` membership equal
to the specification's fold over the produced events. -/
theorem runOps_active (ops : List Op) :
    ∀ (m : Manager) (s : Session) (u : String),
      ((runOps m s ops).1).active_users.contains u =
        specActiveFrom (m.active_users.contains u)
          ((runOps m s ops).2.2) u := by
  induction ops with
  | nil => intro m s u; rfl
  | cons op rest ih =>
    intro m s u
    have hrw : runOps m s (op :: rest) =
        ((runOps (stepOp m s op).1 (stepOp m s op).2.1 rest).1,
         (runOps (stepOp m s op).1 (stepOp m s op).2.1 rest).2.1,
         (stepOp m s op).2.2 ::
           (runOps (stepOp m s op).1 (stepOp m s op).2.1 rest).2.2) := rfl
    rw [hrw]
    show ((runOps (stepOp m s op).1 (stepOp m s op).2.1 rest).1).active_users.contains u = _
    rw [ih (stepOp m s op).1 (stepOp m s op).2.1 u, stepOp_active]
    rfl

/-- C1: on a freshly constructed orchestrator instance run against any
starting store, a user is in `active_users` exactly when the trace so
far contains a successful `install_for_user` for that user not followed
by a successful `uninstall_for_user` for that user; with the empty
trace the set is empty whatever records the store holds. -/
theorem c1_active_user_set (ver : String) (ops : List Op) (s0 : Session)
    (u : String) :
    ((runOps (freshManager ver) s0 ops).1).active_users.contains u =
      specActive ((runOps (freshManager ver) s0 ops).2.2) u := by
  rw [runOps_active]
  rfl

theorem modid_beq (u : String) :
    ((u ++ "_" ++ "OpenAIPlugin" ++ "_" ++ "ComponentOpenAIStatus") ==
     (u ++ "_" ++ "OpenAIPlugin" ++ "_" ++ "ComponentOpenAIChat")) = false := by
  rw [str_append_beq]
  decide

/-- A successful install computed explicitly: starting from a store with
no rows under the three derived identifiers and a user not in
`active_users`, `install_for_user` appends exactly one plugin row and
the two module rows, commits, and adds the user to the set. -/
theorem install_clean (ver : String) (active : List String) (u : String)
    (s : Session)
    (h1 : active.contains u = false)
    (h2 : s.db.plugins.any (fun p => p.id == pidOf u) = false)
    (h4 : s.db.modules.any (fun r => r.id == midSOf u) = false)
    (h5 : s.db.modules.any (fun r => r.id == midCOf u) = false) :
    install_for_user (openAIManager ver active) u s =
      (InstallResult.ok (pidOf u) [midSOf u, midCOf u],
       openAIManager ver (active ++ [u]),
       ⟨⟨s.db.plugins ++ [prowOf ver u],
         s.db.modules ++ [rowSOf u, rowCOf u]⟩,
        ⟨s.db.plugins ++ [prowOf ver u],
         s.db.modules ++ [rowSOf u, rowCOf u]⟩,
        s.log ++ [DbOp.insert, DbOp.insert, DbOp.insert, DbOp.commit]⟩) := by
  have hu : u ∉ active := by
    intro hu
    rw [List.contains_eq_any_beq] at h1
    have : active.any (fun x => u == x) = true :=
      List.any_eq_true.2 ⟨u, hu, by simp⟩
    rw [this] at h1
    cases h1
  unfold pidOf at h2
  unfold midSOf at h4
  unfold midCOf at h5
  simp [install_for_user, perform_user_installation,
    create_database_records, insertModuleRows, execInsertPlugin,
    execInsertModule, execCommit, mkPluginRow, mkModuleRow,
    openAIManager, openAIModules, addUser, hu, h1, h2, h4, h5,
    modid_beq, pidOf, midSOf, midCOf, prowOf, rowSOf, rowCOf,
    statusSchema, chatSchema]

/-- A successful uninstall computed explicitly: starting from the state
right after an install for `u` (the appended plugin and module rows) on
top of older rows none of which belongs to `(u, OpenAIPlugin)`,
`uninstall_for_user` deletes the three rows, reports two deleted modules
plus any pre-existing modules under the derived plugin id, commits, and
removes the user from the set. -/
theorem uninstall_after (ver : String) (act2 : List String) (u : String)
    (plugins0 : List PluginRow) (modules0 : List ModuleRow)
    (c0 : DB) (log0 : List DbOp)
    (hcontains : act2.contains u = true)
    (hp1 : ∀ q ∈ plugins0,
      (q.user_id == u && q.plugin_slug == "OpenAIPlugin") = false)
    (hp2 : ∀ q ∈ plugins0, (q.id == pidOf u) = false) :
    uninstall_for_user (openAIManager ver act2) u
      ⟨c0, ⟨plugins0 ++ [prowOf ver u], modules0 ++ [rowSOf u, rowCOf u]⟩,
       log0⟩ =
    (UninstallResult.ok (pidOf u)
       ((modules0.filter
          (fun r => r.plugin_id == pidOf u && r.user_id == u)).length + 2),
     openAIManager ver (removeUser act2 u),
     ⟨⟨plugins0, modules0.filter
         (fun r => !(r.plugin_id == pidOf u && r.user_id == u))⟩,
      ⟨plugins0, modules0.filter
         (fun r => !(r.plugin_id == pidOf u && r.user_id == u))⟩,
      log0 ++ [DbOp.select, DbOp.delete, DbOp.delete, DbOp.commit]⟩) := by
  have hmem : u ∈ act2 := by simpa using hcontains
  have hfind0 : plugins0.find?
      (fun p => p.user_id == u && p.plugin_slug == "OpenAIPlugin") = none := by
    rw [List.find?_eq_none]
    intro q hq hcontra
    rw [hp1 q hq] at hcontra
    cases hcontra
  have hfilterP : plugins0.filter
      (fun p => !(p.id == pidOf u && p.user_id == u)) = plugins0 := by
    apply List.filter_eq_self.mpr
    intro q hq
    rw [hp2 q hq]
    rfl
  have hfilterPc : plugins0.filter
      (fun p => p.id == pidOf u && p.user_id == u) = [] := by
    apply List.filter_eq_nil_iff.mpr
    intro q hq hcontra
    rw [hp2 q hq] at hcontra
    cases hcontra
  simp [uninstall_for_user, perform_user_uninstallation,
    check_existing_plugin, execSelectPlugin, delete_database_records,
    execDeleteModules, execDeletePlugin, execCommit, removeUser,
    openAIManager, hmem, List.find?_append, hfind0, List.filter_append,
    hfilterP, hfilterPc, prowOf, rowSOf, rowCOf, pidOf]
  intro a ha
  have h := hp2 a ha
  unfold pidOf at h
  left
  intro hcontra
  rw [hcontra] at h
  simp at h

theorem modid_beq_symm (u : String) :
    ((u ++ "_" ++ "OpenAIPlugin" ++ "_" ++ "ComponentOpenAIChat") ==
     (u ++ "_" ++ "OpenAIPlugin" ++ "_" ++ "ComponentOpenAIStatus")) = false := by
  rw [str_append_beq]
  decide

/-- C7: for a user with no existing records, the install succeeds and
creates exactly one plugin row keyed `user_id ++ "_" ++ plugin_slug`
and exactly one module row per module descriptor (two for this plugin)
keyed `user_id ++ "_" ++ plugin_slug ++ "_" ++ moduleName`; the
subsequent delete reports `deleted_modules = 2` and the existence check
afterwards reports `exists=False`. -/
theorem c7_end_to_end (ver : String) (active : List String) (u : String)
    (s : Session)
    (hact : active.contains u = false)
    (hno : noRecordsFor s.db u = true) :
    ((install_for_user (openAIManager ver active) u s).1 =
      InstallResult.ok (pidOf u) [midSOf u, midCOf u]) ∧
    (((install_for_user (openAIManager ver active) u s).2.2).db.plugins.countP
      (fun p => p.id == pidOf u) = 1) ∧
    (((install_for_user (openAIManager ver active) u s).2.2).db.plugins.length
      = s.db.plugins.length + 1) ∧
    (((install_for_user (openAIManager ver active) u s).2.2).db.modules.countP
      (fun r => r.id == midSOf u) = 1) ∧
    (((install_for_user (openAIManager ver active) u s).2.2).db.modules.countP
      (fun r => r.id == midCOf u) = 1) ∧
    (((install_for_user (openAIManager ver active) u s).2.2).db.modules.length
      = s.db.modules.length + 2) ∧
    ((uninstall_for_user
        ((install_for_user (openAIManager ver active) u s).2.1) u
        ((install_for_user (openAIManager ver active) u s).2.2)).1 =
      UninstallResult.ok (pidOf u) 2) ∧
    (((get_plugin_status
        ((uninstall_for_user
          ((install_for_user (openAIManager ver active) u s).2.1) u
          ((install_for_user (openAIManager ver active) u s).2.2)).2.1) u
        ((uninstall_for_user
          ((install_for_user (openAIManager ver active) u s).2.1) u
          ((install_for_user (openAIManager ver active) u s).2.2)).2.2)).1).exists_flag
      = false) := by
  unfold noRecordsFor at hno
  simp only [Bool.and_eq_true] at hno
  obtain ⟨⟨⟨⟨hA, hB⟩, hC⟩, hD⟩, hE⟩ := hno
  have hA' : ∀ q ∈ s.db.plugins, (q.id == pidOf u) = false := by
    intro q hq
    have := List.all_eq_true.1 hA q hq
    cases hqq : (q.id == pidOf u)
    · rfl
    · rw [hqq] at this; cases this
  have hB' : ∀ q ∈ s.db.plugins,
      (q.user_id == u && q.plugin_slug == "OpenAIPlugin") = false := by
    intro q hq
    have := List.all_eq_true.1 hB q hq
    cases hqq : (q.user_id == u && q.plugin_slug == "OpenAIPlugin")
    · rfl
    · rw [hqq] at this; cases this
  have hE' : ∀ r ∈ s.db.modules,
      (r.plugin_id == pidOf u && r.user_id == u) = false := by
    intro r hr
    have := List.all_eq_true.1 hE r hr
    cases hrr : (r.plugin_id == pidOf u && r.user_id == u)
    · rfl
    · rw [hrr] at this; cases this
  have h2 : s.db.plugins.any (fun p => p.id == pidOf u) = false := by
    rw [List.any_eq_false]
    intro p hp hcontra
    rw [hA' p hp] at hcontra
    cases hcontra
  have h4 : s.db.modules.any (fun r => r.id == midSOf u) = false := by
    rw [List.any_eq_false]
    intro r hr hcontra
    have := List.all_eq_true.1 hC r hr
    rw [hcontra] at this
    cases this
  have h5 : s.db.modules.any (fun r => r.id == midCOf u) = false := by
    rw [List.any_eq_false]
    intro r hr hcontra
    have := List.all_eq_true.1 hD r hr
    rw [hcontra] at this
    cases this
  have hinst := install_clean ver active u s hact h2 h4 h5
  have hcnt0 : s.db.plugins.countP (fun p => p.id == pidOf u) = 0 :=
    List.countP_eq_zero.2 (by
      intro p hp hcontra
      rw [hA' p hp] at hcontra
      cases hcontra)
  have hcntS : s.db.modules.countP (fun r => r.id == midSOf u) = 0 :=
    List.countP_eq_zero.2 (by
      intro r hr hcontra
      have := List.all_eq_true.1 hC r hr
      rw [hcontra] at this
      cases this)
  have hcntC : s.db.modules.countP (fun r => r.id == midCOf u) = 0 :=
    List.countP_eq_zero.2 (by
      intro r hr hcontra
      have := List.all_eq_true.1 hD r hr
      rw [hcontra] at this
      cases this)
  have hfiltE : s.db.modules.filter
      (fun r => r.plugin_id == pidOf u && r.user_id == u) = [] := by
    apply List.filter_eq_nil_iff.mpr
    intro r hr hcontra
    rw [hE' r hr] at hcontra
    cases hcontra
  have hunin := uninstall_after ver (active ++ [u]) u s.db.plugins
    s.db.modules
    ⟨s.db.plugins ++ [prowOf ver u], s.db.modules ++ [rowSOf u, rowCOf u]⟩
    (s.log ++ [DbOp.insert, DbOp.insert, DbOp.insert, DbOp.commit])
    (by rw [contains_append_single, hact]; simp)
    hB' hA'
  rw [hinst]
  refine ⟨rfl, ?_, ?_, ?_, ?_, ?_, ?_, ?_⟩
  · rw [List.countP_append, hcnt0]
    simp [prowOf]
  · simp
  · rw [List.countP_append, hcntS]
    simp [rowSOf, rowCOf, midSOf, midCOf, modid_beq_symm]
  · rw [List.countP_append, hcntC]
    simp [rowSOf, rowCOf, midSOf, midCOf, modid_beq]
  · simp
  · show (uninstall_for_user (openAIManager ver (active ++ [u])) u _).1 = _
    rw [hunin, hfiltE]
    rfl
  · show ((get_plugin_status
      (uninstall_for_user (openAIManager ver (active ++ [u])) u _).2.1 u
      (uninstall_for_user (openAIManager ver (active ++ [u])) u _).2.2).1).exists_flag = false
    rw [hunin]
    have hfind0 : s.db.plugins.find?
        (fun p => p.user_id == u && p.plugin_slug == "OpenAIPlugin") = none := by
      rw [List.find?_eq_none]
      intro q hq hcontra
      rw [hB' q hq] at hcontra
      cases hcontra
    simp [get_plugin_status, check_existing_plugin, execSelectPlugin,
      openAIManager, hfind0]

/-- Witness for C7 at user `"u1"` on an empty store. -/
theorem c7_witness :
    ((install_for_user (openAIManager "1.0.0" []) "u1" emptySession).1 =
      InstallResult.ok (pidOf "u1") [midSOf "u1", midCOf "u1"]) ∧
    ((uninstall_for_user
        ((install_for_user (openAIManager "1.0.0" []) "u1"
          emptySession).2.1) "u1"
        ((install_for_user (openAIManager "1.0.0" []) "u1"
          emptySession).2.2)).1 =
      UninstallResult.ok (pidOf "u1") 2) ∧
    (((get_plugin_status
        ((uninstall_for_user
          ((install_for_user (openAIManager "1.0.0" []) "u1"
            emptySession).2.1) "u1"
          ((install_for_user (openAIManager "1.0.0" []) "u1"
            emptySession).2.2)).2.1) "u1"
        ((uninstall_for_user
          ((install_for_user (openAIManager "1.0.0" []) "u1"
            emptySession).2.1) "u1"
          ((install_for_user (openAIManager "1.0.0" []) "u1"
            emptySession).2.2)).2.2)).1).exists_flag = false) := by
  have h := c7_end_to_end "1.0.0" [] "u1" emptySession (by decide) (by decide)
  exact ⟨h.1, h.2.2.2.2.2.2.1, h.2.2.2.2.2.2.2⟩

/-- C6: for any user whose install has succeeded on an orchestrator
instance (against a store satisfying the derived-key data model),
`uninstall_for_user` succeeds, `get_plugin_status` afterwards reports
`exists=False`, and a second `uninstall_for_user` on the same instance
fails with the not-installed error. -/
theorem c6_uninstall_then_status (ver : String) (active : List String)
    (u : String) (s : Session)
    (hwf : wellKeyed s.db = true)
    (hok : ((install_for_user (openAIManager ver active) u s).1).isOk
      = true) :
    (((uninstall_for_user
        ((install_for_user (openAIManager ver active) u s).2.1) u
        ((install_for_user (openAIManager ver active) u s).2.2)).1).isOk
      = true) ∧
    (((get_plugin_status
        ((uninstall_for_user
          ((install_for_user (openAIManager ver active) u s).2.1) u
          ((install_for_user (openAIManager ver active) u s).2.2)).2.1) u
        ((uninstall_for_user
          ((install_for_user (openAIManager ver active) u s).2.1) u
          ((install_for_user (openAIManager ver active) u s).2.2)).2.2)).1).exists_flag
      = false) ∧
    ((uninstall_for_user
        ((uninstall_for_user
          ((install_for_user (openAIManager ver active) u s).2.1) u
          ((install_for_user (openAIManager ver active) u s).2.2)).2.1) u
        ((uninstall_for_user
          ((install_for_user (openAIManager ver active) u s).2.1) u
          ((install_for_user (openAIManager ver active) u s).2.2)).2.2)).1 =
      UninstallResult.err "Plugin not installed for user") := by
  by_cases hc : active.contains u = true
  · exfalso
    have hmem : u ∈ active := by simpa using hc
    simp [install_for_user, openAIManager, hmem, InstallResult.isOk] at hok
  · have hact : active.contains u = false := by
      cases hcc : active.contains u
      · rfl
      · exact absurd hcc hc
    by_cases hp : s.db.plugins.any (fun p => p.id == pidOf u) = true
    · exfalso
      have hmem : u ∉ active := by
        intro hmm
        exact hc (by simpa using hmm)
      unfold pidOf at hp
      simp [install_for_user, perform_user_installation, openAIManager,
        create_database_records, execInsertPlugin, execRollback,
        mkPluginRow, hmem, hp, InstallResult.isOk] at hok
    · have hp' : s.db.plugins.any (fun p => p.id == pidOf u) = false := by
        cases hpp : s.db.plugins.any (fun p => p.id == pidOf u)
        · rfl
        · exact absurd hpp hp
      by_cases hm1 : s.db.modules.any (fun r => r.id == midSOf u) = true
      · exfalso
        have hmem : u ∉ active := by
          intro hmm
          exact hc (by simpa using hmm)
        unfold pidOf at hp'
        unfold midSOf at hm1
        simp [install_for_user, perform_user_installation, openAIManager,
          create_database_records, execInsertPlugin, execInsertModule,
          insertModuleRows, execRollback, mkPluginRow, mkModuleRow,
          openAIModules, hmem, hp', hm1, InstallResult.isOk] at hok
      · have hm1' : s.db.modules.any (fun r => r.id == midSOf u) = false := by
          cases hmm : s.db.modules.any (fun r => r.id == midSOf u)
          · rfl
          · exact absurd hmm hm1
        by_cases hm2 : s.db.modules.any (fun r => r.id == midCOf u) = true
        · exfalso
          have hmem : u ∉ active := by
            intro hmm
            exact hc (by simpa using hmm)
          unfold pidOf at hp'
          unfold midSOf at hm1'
          unfold midCOf at hm2
          simp [install_for_user, perform_user_installation, openAIManager,
            create_database_records, execInsertPlugin, execInsertModule,
            insertModuleRows, execRollback, mkPluginRow, mkModuleRow,
            openAIModules, hmem, hp', hm1', hm2, modid_beq,
            InstallResult.isOk] at hok
        · have hm2' : s.db.modules.any (fun r => r.id == midCOf u) = false := by
            cases hmm : s.db.modules.any (fun r => r.id == midCOf u)
            · rfl
            · exact absurd hmm hm2
          have hA' : ∀ q ∈ s.db.plugins, (q.id == pidOf u) = false := by
            intro q hq
            cases hqq : (q.id == pidOf u)
            · rfl
            · exfalso
              rw [List.any_eq_false] at hp'
              exact hp' q hq hqq
          have hB' : ∀ q ∈ s.db.plugins,
              (q.user_id == u && q.plugin_slug == "OpenAIPlugin") = false := by
            intro q hq
            cases hqq : (q.user_id == u && q.plugin_slug == "OpenAIPlugin")
            · rfl
            · exfalso
              rw [Bool.and_eq_true] at hqq
              have hu : q.user_id = u := by
                have := hqq.1
                simpa using this
              have hsl : q.plugin_slug = "OpenAIPlugin" := by
                have := hqq.2
                simpa using this
              have hkey := List.all_eq_true.1 hwf q hq
              have hid : q.id = q.user_id ++ "_" ++ q.plugin_slug := by
                simpa using hkey
              have : q.id = pidOf u := by
                rw [hid, hu, hsl]
                rfl
              have := hA' q hq
              rw [this] at *
              simp_all
          have hinst := install_clean ver active u s hact hp' hm1' hm2'
          have hunin := uninstall_after ver (active ++ [u]) u s.db.plugins
            s.db.modules
            ⟨s.db.plugins ++ [prowOf ver u],
             s.db.modules ++ [rowSOf u, rowCOf u]⟩
            (s.log ++ [DbOp.insert, DbOp.insert, DbOp.insert, DbOp.commit])
            (by rw [contains_append_single, hact]; simp)
            hB' hA'
          rw [hinst]
          have hfind0 : s.db.plugins.find?
              (fun p => p.user_id == u && p.plugin_slug == "OpenAIPlugin")
                = none := by
            rw [List.find?_eq_none]
            intro q hq hcontra
            rw [hB' q hq] at hcontra
            cases hcontra
          refine ⟨?_, ?_, ?_⟩
          · show ((uninstall_for_user (openAIManager ver (active ++ [u]))
              u _).1).isOk = true
            rw [hunin]
            rfl
          · show ((get_plugin_status
              ((uninstall_for_user (openAIManager ver (active ++ [u]))
                u _).2.1) u
              ((uninstall_for_user (openAIManager ver (active ++ [u]))
                u _).2.2)).1).exists_flag = false
            rw [hunin]
            simp [get_plugin_status, check_existing_plugin,
              execSelectPlugin, openAIManager, hfind0]
          · show (uninstall_for_user
              ((uninstall_for_user (openAIManager ver (active ++ [u]))
                u _).2.1) u
              ((uninstall_for_user (openAIManager ver (active ++ [u]))
                u _).2.2)).1 = _
            rw [hunin]
            have hnomem : u ∉ removeUser (active ++ [u]) u := by
              intro hmm
              have := List.mem_filter.1 hmm
              simp at this
            simp [uninstall_for_user, openAIManager, hnomem]

/-- Witness for C6 at user `"u1"` on an empty store. -/
theorem c6_witness :
    (((uninstall_for_user
        ((install_for_user (openAIManager "1.0.0" []) "u1"
          emptySession).2.1) "u1"
        ((install_for_user (openAIManager "1.0.0" []) "u1"
          emptySession).2.2)).1).isOk = true) ∧
    ((uninstall_for_user
        ((uninstall_for_user
          ((install_for_user (openAIManager "1.0.0" []) "u1"
            emptySession).2.1) "u1"
          ((install_for_user (openAIManager "1.0.0" []) "u1"
            emptySession).2.2)).2.1) "u1"
        ((uninstall_for_user
          ((install_for_user (openAIManager "1.0.0" []) "u1"
            emptySession).2.1) "u1"
          ((install_for_user (openAIManager "1.0.0" []) "u1"
            emptySession).2.2)).2.2)).1 =
      UninstallResult.err "Plugin not installed for user") := by
  have h := c6_uninstall_then_status "1.0.0" [] "u1" emptySession
    (by decide) (by decide)
  exact ⟨h.1, h.2.2⟩

/-- C3, counterexample: for a user with no records in the store,
the import writes nothing (its UPDATE statements match no rows), so the
export after it returns empty configurations rather than the imported
configuration — the round trip fails without an installed user. -/
theorem c3_counterexample :
    ((export_user_data (freshManager "1.0.0") "u9"
        (import_user_data (freshManager "1.0.0") "u9" emptySession
          ⟨"u9", "OpenAIPlugin", "1.0.0",
           Json.obj [("theme", Json.str "dark")],
           [("ComponentOpenAIStatus", Json.obj []),
            ("ComponentOpenAIChat", Json.obj [])]⟩)).1).user_config
      = Json.obj [] ∧
    ((export_user_data (freshManager "1.0.0") "u9"
        (import_user_data (freshManager "1.0.0") "u9" emptySession
          ⟨"u9", "OpenAIPlugin", "1.0.0",
           Json.obj [("theme", Json.str "dark")],
           [("ComponentOpenAIStatus", Json.obj []),
            ("ComponentOpenAIChat", Json.obj [])]⟩)).1).module_configs
      = [] ∧
    Json.obj [] ≠ Json.obj [("theme", Json.str "dark")] := by
  refine ⟨rfl, rfl, ?_⟩
  intro h
  cases h

theorem modid_ne (u : String) :
    ¬(u ++ "_" ++ "OpenAIPlugin" ++ "_" ++ "ComponentOpenAIStatus" =
      u ++ "_" ++ "OpenAIPlugin" ++ "_" ++ "ComponentOpenAIChat") := by
  intro h
  have hb : ((u ++ "_" ++ "OpenAIPlugin" ++ "_" ++ "ComponentOpenAIStatus") ==
      (u ++ "_" ++ "OpenAIPlugin" ++ "_" ++ "ComponentOpenAIChat")) = true := by
    simp [h]
  rw [modid_beq] at hb
  cases hb

theorem modid_ne_symm (u : String) :
    ¬(u ++ "_" ++ "OpenAIPlugin" ++ "_" ++ "ComponentOpenAIChat" =
      u ++ "_" ++ "OpenAIPlugin" ++ "_" ++ "ComponentOpenAIStatus") := by
  intro h
  exact modid_ne u h.symm

set_option maxHeartbeats 1600000 in
/-- C3, amended: for a user whose records exist as created by a
successful install, importing a structurally valid configuration whose
module map assigns a configuration to exactly this plugin's two modules
and then exporting yields the same user configuration and an
observationally equal module-configuration map (equal lookups on every
key). -/
theorem c3_round_trip_after_install (u : String)
    (f : List (String × Json)) (a b : Json) (l : List (String × Json))
    (hl : l = [("ComponentOpenAIStatus", a), ("ComponentOpenAIChat", b)] ∨
          l = [("ComponentOpenAIChat", b), ("ComponentOpenAIStatus", a)]) :
    ((export_user_data
        ((install_for_user (openAIManager "1.0.0" []) u emptySession).2.1) u
        (import_user_data
          ((install_for_user (openAIManager "1.0.0" []) u
            emptySession).2.1) u
          ((install_for_user (openAIManager "1.0.0" []) u
            emptySession).2.2)
          ⟨u, "OpenAIPlugin", "1.0.0", Json.obj f, l⟩)).1).user_config
      = Json.obj f ∧
    (∀ k, List.lookup k
        ((export_user_data
          ((install_for_user (openAIManager "1.0.0" []) u
            emptySession).2.1) u
          (import_user_data
            ((install_for_user (openAIManager "1.0.0" []) u
              emptySession).2.1) u
            ((install_for_user (openAIManager "1.0.0" []) u
              emptySession).2.2)
            ⟨u, "OpenAIPlugin", "1.0.0", Json.obj f, l⟩)).1).module_configs
      = List.lookup k l) := by
  have hinst := install_clean "1.0.0" [] u emptySession rfl rfl rfl rfl
  rw [hinst]
  have hSC : (("ComponentOpenAIStatus" : String) ==
    "ComponentOpenAIChat") = false := by decide
  have hCS : (("ComponentOpenAIChat" : String) ==
    "ComponentOpenAIStatus") = false := by decide
  have hmods : ∀ s' : Session,
      s'.db.plugins = [prowOf "1.0.0" u] →
      s'.db.modules = [rowSOf u, rowCOf u] → True := fun _ _ _ => trivial
  rcases hl with hl | hl <;> subst hl <;> cases f with
  | nil =>
    constructor
    · simp [import_user_data, export_user_data, execUpdatePluginConfig,
        execUpdateModuleConfig, execSelectPlugin, execSelectModules,
        emptySession, emptyDB,
        dictSet, storedTruthy, storedLoads, pyTruthy, openAIManager,
        prowOf, rowSOf, rowCOf, pidOf, midSOf, midCOf, modid_beq,
        modid_beq_symm, modid_ne, modid_ne_symm, hSC, hCS]
    · intro k
      simp [import_user_data, export_user_data, execUpdatePluginConfig,
        execUpdateModuleConfig, execSelectPlugin, execSelectModules,
        emptySession, emptyDB,
        dictSet, storedTruthy, storedLoads, pyTruthy, openAIManager,
        prowOf, rowSOf, rowCOf, pidOf, midSOf, midCOf, modid_beq,
        modid_beq_symm, modid_ne, modid_ne_symm, hSC, hCS, List.lookup]
      all_goals
        (by_cases hk1 : k = "ComponentOpenAIStatus"
         · subst hk1; simp [hSC]
         · by_cases hk2 : k = "ComponentOpenAIChat"
           · subst hk2; simp [hCS]
           · have h1 : (k == "ComponentOpenAIStatus") = false :=
               beq_eq_false_iff_ne.mpr hk1
             have h2 : (k == "ComponentOpenAIChat") = false :=
               beq_eq_false_iff_ne.mpr hk2
             simp [h1, h2])
  | cons f0 fs =>
    constructor
    · simp [import_user_data, export_user_data, execUpdatePluginConfig,
        execUpdateModuleConfig, execSelectPlugin, execSelectModules,
        emptySession, emptyDB,
        dictSet, storedTruthy, storedLoads, pyTruthy, openAIManager,
        prowOf, rowSOf, rowCOf, pidOf, midSOf, midCOf, modid_beq,
        modid_beq_symm, modid_ne, modid_ne_symm, hSC, hCS]
    · intro k
      simp [import_user_data, export_user_data, execUpdatePluginConfig,
        execUpdateModuleConfig, execSelectPlugin, execSelectModules,
        emptySession, emptyDB,
        dictSet, storedTruthy, storedLoads, pyTruthy, openAIManager,
        prowOf, rowSOf, rowCOf, pidOf, midSOf, midCOf, modid_beq,
        modid_beq_symm, modid_ne, modid_ne_symm, hSC, hCS, List.lookup]
      all_goals
        (by_cases hk1 : k = "ComponentOpenAIStatus"
         · subst hk1; simp [hSC]
         · by_cases hk2 : k = "ComponentOpenAIChat"
           · subst hk2; simp [hCS]
           · have h1 : (k == "ComponentOpenAIStatus") = false :=
               beq_eq_false_iff_ne.mpr hk1
             have h2 : (k == "ComponentOpenAIChat") = false :=
               beq_eq_false_iff_ne.mpr hk2
             simp [h1, h2])

/-- Witness for C3's amended theorem at user `"u1"` and a concrete
configuration. -/
theorem c3_witness :
    ((export_user_data
        ((install_for_user (openAIManager "1.0.0" []) "u1"
          emptySession).2.1) "u1"
        (import_user_data
          ((install_for_user (openAIManager "1.0.0" []) "u1"
            emptySession).2.1) "u1"
          ((install_for_user (openAIManager "1.0.0" []) "u1"
            emptySession).2.2)
          ⟨"u1", "OpenAIPlugin", "1.0.0",
           Json.obj [("theme", Json.str "dark")],
           [("ComponentOpenAIStatus", Json.obj [("x", Json.num 1)]),
            ("ComponentOpenAIChat", Json.obj [])]⟩)).1).user_config
      = Json.obj [("theme", Json.str "dark")] ∧
    List.lookup "ComponentOpenAIStatus"
      ((export_user_data
        ((install_for_user (openAIManager "1.0.0" []) "u1"
          emptySession).2.1) "u1"
        (import_user_data
          ((install_for_user (openAIManager "1.0.0" []) "u1"
            emptySession).2.1) "u1"
          ((install_for_user (openAIManager "1.0.0" []) "u1"
            emptySession).2.2)
          ⟨"u1", "OpenAIPlugin", "1.0.0",
           Json.obj [("theme", Json.str "dark")],
           [("ComponentOpenAIStatus", Json.obj [("x", Json.num 1)]),
            ("ComponentOpenAIChat", Json.obj [])]⟩)).1).module_configs
      = some (Json.obj [("x", Json.num 1)]) := by
  have h := c3_round_trip_after_install "u1" [("theme", Json.str "dark")]
    (Json.obj [("x", Json.num 1)]) (Json.obj [])
    [("ComponentOpenAIStatus", Json.obj [("x", Json.num 1)]),
     ("ComponentOpenAIChat", Json.obj [])] (Or.inl rfl)
  refine ⟨h.1, ?_⟩
  rw [h.2 "ComponentOpenAIStatus"]
  rfl

/-- C5: install version 1.0.0 for `"u1"`, set the status module's
configuration to `theme = dark`, then update to a version-2.0.0 manager
via `update_plugin`; the exported module configuration for `"u1"` still
contains `theme = dark` while the stored plugin row's version has
changed to 2.0.0. -/
theorem c5_update_preserves_config :
    (update_plugin
        ((install_for_user (freshManager "1.0.0") "u1" emptySession).2.1)
        "u1"
        (import_user_data
          ((install_for_user (freshManager "1.0.0") "u1"
            emptySession).2.1) "u1"
          ((install_for_user (freshManager "1.0.0") "u1"
            emptySession).2.2)
          ⟨"u1", "OpenAIPlugin", "1.0.0", Json.obj [],
           [("ComponentOpenAIStatus",
             Json.obj [("theme", Json.str "dark")])]⟩)
        (freshManager "2.0.0")).1 = UpdateResult.ok ∧
    List.lookup "ComponentOpenAIStatus"
      ((export_user_data
        (update_plugin
          ((install_for_user (freshManager "1.0.0") "u1"
            emptySession).2.1) "u1"
          (import_user_data
            ((install_for_user (freshManager "1.0.0") "u1"
              emptySession).2.1) "u1"
            ((install_for_user (freshManager "1.0.0") "u1"
              emptySession).2.2)
            ⟨"u1", "OpenAIPlugin", "1.0.0", Json.obj [],
             [("ComponentOpenAIStatus",
               Json.obj [("theme", Json.str "dark")])]⟩)
          (freshManager "2.0.0")).2.2.1 "u1"
        (update_plugin
          ((install_for_user (freshManager "1.0.0") "u1"
            emptySession).2.1) "u1"
          (import_user_data
            ((install_for_user (freshManager "1.0.0") "u1"
              emptySession).2.1) "u1"
            ((install_for_user (freshManager "1.0.0") "u1"
              emptySession).2.2)
            ⟨"u1", "OpenAIPlugin", "1.0.0", Json.obj [],
             [("ComponentOpenAIStatus",
               Json.obj [("theme", Json.str "dark")])]⟩)
          (freshManager "2.0.0")).2.2.2).1).module_configs
      = some (Json.obj [("theme", Json.str "dark")]) ∧
    ((update_plugin
        ((install_for_user (freshManager "1.0.0") "u1" emptySession).2.1)
        "u1"
        (import_user_data
          ((install_for_user (freshManager "1.0.0") "u1"
            emptySession).2.1) "u1"
          ((install_for_user (freshManager "1.0.0") "u1"
            emptySession).2.2)
          ⟨"u1", "OpenAIPlugin", "1.0.0", Json.obj [],
           [("ComponentOpenAIStatus",
             Json.obj [("theme", Json.str "dark")])]⟩)
        (freshManager "2.0.0")).2.2.2).db.plugins.map
      (fun p => p.version) = ["2.0.0"] :=
  ⟨rfl, rfl, rfl⟩
